/-
  Verification of the smart_home real-time telemetry client.

  Shallow embedding of the frontend telemetry-client subsystem:
    * src/frontend/src/utils/frameLimiter.js        (FrameLimiter)
    * src/frontend/src/hooks/useWebSocket.js        (connection manager / reconnect)
    * src/frontend/src/context/WebSocketContext.jsx (subscription registry, message router)
    * src/frontend/src/components/Video/LiveFeed.jsx (audio playback queue, PCM decode)

  Machine integers of the source are modelled as Nat/Int; millisecond clock
  values and the fps quotient 1000 / maxFps are modelled as exact rationals
  (every quantity a claim depends on is either an integer or a dyadic rational
  such as 16384 / 32768, on which JavaScript's float64 arithmetic is exact).
-/
import Mathlib

namespace SmartHome

/-! ## Frame rate limiter (src/frontend/src/utils/frameLimiter.js, class FrameLimiter)

The same display decision is inlined in the LiveFeed effect
(src/frontend/src/components/Video/LiveFeed.jsx lines 282-324):
`timeSinceLastFrame = now - lastFrameTimeRef.current`, display iff
`timeSinceLastFrame > MIN_FRAME_INTERVAL`, with `MIN_FRAME_INTERVAL = 1000 / maxFps`,
`lastFrameTimeRef.current := now` on display, `totalFrames` incremented on every
arrival and `droppedFrames` incremented otherwise.  -/

/-- State of a `FrameLimiter` (constructor fields of the JS class; `maxFps` and
`minInterval` are set once in the constructor, `lastUpdateTime` starts at 0). -/
structure FrameLimiter where
  maxFps : ℚ
  minInterval : ℚ
  lastUpdateTime : ℚ
  frameCount : ℕ
  droppedFrames : ℕ
  deriving DecidableEq

/-- `new FrameLimiter(maxFps)`. -/
def FrameLimiter.init (maxFps : ℚ) : FrameLimiter :=
  { maxFps := maxFps
    minInterval := 1000 / maxFps
    lastUpdateTime := 0
    frameCount := 0
    droppedFrames := 0 }

/-- `FrameLimiter.shouldUpdate`, with the call to `Date.now()` made an explicit
argument `now`.  `this.frameCount++` happens on every call; on display the
method records `lastUpdateTime = now`, otherwise it increments `droppedFrames`.
Returns the displayed/dropped decision and the updated state. -/
def FrameLimiter.shouldUpdate (s : FrameLimiter) (now : ℚ) : Bool × FrameLimiter :=
  if now - s.lastUpdateTime > s.minInterval then
    (true, { s with frameCount := s.frameCount + 1, lastUpdateTime := now })
  else
    (false, { s with frameCount := s.frameCount + 1,
                     droppedFrames := s.droppedFrames + 1 })

/-- Feed a sequence of frame arrival times through the limiter; returns the
arrival times of the frames it decided to display (in order) and the final
state. -/
def runLimiter (s : FrameLimiter) : List ℚ → List ℚ × FrameLimiter
  | [] => ([], s)
  | t :: ts =>
    let r := s.shouldUpdate t
    let rest := runLimiter r.2 ts
    (if r.1 then t :: rest.1 else rest.1, rest.2)

/-- Invariant carried through `runLimiter`: if the interval is positive then
every displayed time exceeds `lastUpdateTime + minInterval`, and displayed
times are pairwise more than `minInterval` apart. -/
theorem runLimiter_spacing_aux (ts : List ℚ) : ∀ s : FrameLimiter,
    0 < s.minInterval →
    (∀ x ∈ (runLimiter s ts).1, s.lastUpdateTime + s.minInterval < x) ∧
      (runLimiter s ts).1.Pairwise (fun a b => s.minInterval < b - a) := by
  induction ts with
  | nil => intro s _; simp [runLimiter]
  | cons t ts ih =>
    intro s hpos
    by_cases h : t - s.lastUpdateTime > s.minInterval
    · have hstep : s.shouldUpdate t =
          (true, { s with frameCount := s.frameCount + 1, lastUpdateTime := t }) := by
        unfold FrameLimiter.shouldUpdate
        rw [if_pos h]
      have hrun : (runLimiter s (t :: ts)).1 =
          t :: (runLimiter { s with frameCount := s.frameCount + 1,
                                    lastUpdateTime := t } ts).1 := by
        simp [runLimiter, hstep]
      obtain ⟨hall, hpair⟩ :=
        ih { s with frameCount := s.frameCount + 1, lastUpdateTime := t } hpos
      rw [hrun]
      constructor
      · intro x hx
        rcases List.mem_cons.1 hx with rfl | hx
        · linarith
        · have hx' : t + s.minInterval < x := hall x hx
          linarith
      · refine List.pairwise_cons.2 ⟨?_, hpair⟩
        intro b hb
        have hb' : t + s.minInterval < b := hall b hb
        linarith
    · have hstep : s.shouldUpdate t =
          (false, { s with frameCount := s.frameCount + 1,
                           droppedFrames := s.droppedFrames + 1 }) := by
        unfold FrameLimiter.shouldUpdate
        rw [if_neg h]
      have hrun : (runLimiter s (t :: ts)).1 =
          (runLimiter { s with frameCount := s.frameCount + 1,
                               droppedFrames := s.droppedFrames + 1 } ts).1 := by
        simp [runLimiter, hstep]
      obtain ⟨hall, hpair⟩ :=
        ih { s with frameCount := s.frameCount + 1,
                    droppedFrames := s.droppedFrames + 1 } hpos
      rw [hrun]
      exact ⟨fun x hx => hall x hx, hpair⟩

/-- C1. For every `maxFps ≥ 1` and every sequence of frame arrival times, any
two frames the limiter decides to display are more than `1000 / maxFps`
milliseconds apart: the display decision `now - lastUpdateTime > minInterval`
(updating `lastUpdateTime := now` on display) keeps the displayed times
pairwise separated by more than `1000 / maxFps`. -/
theorem frameLimiter_display_spacing (maxFps : ℚ) (ts : List ℚ) (h : 1 ≤ maxFps) :
    (runLimiter (FrameLimiter.init maxFps) ts).1.Pairwise
      (fun a b => 1000 / maxFps < b - a) := by
  have hpos : 0 < (FrameLimiter.init maxFps).minInterval := by
    simp only [FrameLimiter.init]
    positivity
  exact (runLimiter_spacing_aux ts (FrameLimiter.init maxFps) hpos).2

/-- Witness for C1 at `maxFps = 5` and arrivals `[0, 100, 300]`. -/
theorem frameLimiter_display_spacing_witness :
    (1 : ℚ) ≤ 5 ∧
      (runLimiter (FrameLimiter.init 5) [0, 100, 300]).1.Pairwise
        (fun a b => 1000 / 5 < b - a) :=
  ⟨by norm_num, frameLimiter_display_spacing 5 [0, 100, 300] (by norm_num)⟩

/-! ### The `maxFps = 5`, 20-frames-at-50ms scenario (claim C8)

Twenty frames arriving 50 ms apart, the first at clock value 1000 (a positive
clock, as `Date.now()` always is, so that the first arrival is displayed
against the initial `lastUpdateTime = 0`). -/

/-- Frame arrival times: every 50 ms for 1 second, 20 frames. -/
def c8Arrivals : List ℚ :=
  [1000, 1050, 1100, 1150, 1200, 1250, 1300, 1350, 1400, 1450,
   1500, 1550, 1600, 1650, 1700, 1750, 1800, 1850, 1900, 1950]

theorem c8_run_eval :
    runLimiter (FrameLimiter.init 5) c8Arrivals =
      ([1000, 1250, 1500, 1750],
        { maxFps := 5, minInterval := 200, lastUpdateTime := 1750,
          frameCount := 20, droppedFrames := 16 }) := by
  norm_num [c8Arrivals, runLimiter, FrameLimiter.shouldUpdate, FrameLimiter.init]

/-- C8 counterexample: with `maxFps = 5` and 20 frames arriving every 50 ms,
the limiter does NOT display 5 and drop 15.  Because the display test is the
strict `now - lastUpdateTime > 200` on a 50 ms arrival grid, a frame is
displayed only 250 ms after the previous one. -/
theorem c8_fiveFps_counterexample :
    ¬ ((runLimiter (FrameLimiter.init 5) c8Arrivals).1.length = 5 ∧
       (runLimiter (FrameLimiter.init 5) c8Arrivals).2.droppedFrames = 15) := by
  rw [c8_run_eval]
  intro h
  simp at h

/-- C8 amended: with `maxFps = 5` and 20 frames arriving every 50 ms for one
second, exactly 4 frames are displayed (at 1000, 1250, 1500, 1750) and 16 are
dropped, so `droppedFrames / totalFrames = 16 / 20 = 0.8`. -/
theorem c8_fiveFps_amended :
    (runLimiter (FrameLimiter.init 5) c8Arrivals).1 = [1000, 1250, 1500, 1750] ∧
    (runLimiter (FrameLimiter.init 5) c8Arrivals).2.frameCount = 20 ∧
    (runLimiter (FrameLimiter.init 5) c8Arrivals).2.droppedFrames = 16 ∧
    (16 : ℚ) / 20 = 8 / 10 := by
  rw [c8_run_eval]
  refine ⟨rfl, rfl, rfl, by norm_num⟩

/-! ## Connection manager (src/frontend/src/hooks/useWebSocket.js)

The hook keeps `connectionAttempts` in React state, but memoizes `connect`
with `useCallback` over the dependency list `[url, getReconnectDelay]` only.
`getReconnectDelay` is itself memoized over `[]` and `url` is fixed, so
`connect` — and with it every socket's `onclose` handler, including the ones
installed by the reconnect timer, which calls the same memoized `connect` —
closes over the `connectionAttempts` value of the first render, namely `0`.
The model makes that captured value an explicit argument `captured` of the
handler; replaying the hook's actual behaviour instantiates `captured := 0`
at every close event. -/

def MAX_RECONNECT_ATTEMPTS : ℕ := 10

def UNSTABLE_THRESHOLD : ℕ := 3

def NOTIFICATION_THRESHOLD : ℕ := 5

/-- `getReconnectDelay(attempts) = Math.min(3000 * Math.pow(2, attempts), 30000)`. -/
def getReconnectDelay (attempts : ℕ) : ℕ :=
  min (3000 * 2 ^ attempts) 30000

/-- The hook's observable connection state (React state plus the
`notificationShownRef` ref; `terminalError` records whether the
"Failed to connect after 10 attempts" terminal error was set). -/
structure WSState where
  isConnected : Bool
  connectionAttempts : ℕ
  isUnstable : Bool
  notificationShown : Bool
  terminalError : Bool
  deriving DecidableEq

/-- State at the first render. -/
def WSState.init : WSState :=
  { isConnected := false
    connectionAttempts := 0
    isUnstable := false
    notificationShown := false
    terminalError := false }

/-- A WebSocket `CloseEvent` (the fields the handler reads). -/
structure CloseEvent where
  code : ℕ
  wasClean : Bool
  deriving DecidableEq

/-- An unclean close (abnormal closure). -/
def uncleanClose : CloseEvent := { code := 1006, wasClean := false }

/-- The state mutations of the `ws.onclose` handler (useWebSocket.js lines
144-179): `setIsConnected(false)` always; on an unclean close (`!wasClean` and
code ≠ 1000) `setConnectionAttempts(captured + 1)`, `setIsUnstable(true)` when
the new count exceeds `UNSTABLE_THRESHOLD`, and the one-shot notification flag
when it exceeds `NOTIFICATION_THRESHOLD`.  The source performs these as
sequential mutations of disjoint fields; they are rendered here as one record
update. -/
def onCloseState (captured : ℕ) (e : CloseEvent) (s : WSState) : WSState :=
  if e.wasClean = false ∧ e.code ≠ 1000 then
    { s with
      isConnected := false
      connectionAttempts := captured + 1
      isUnstable := if captured + 1 > UNSTABLE_THRESHOLD then true else s.isUnstable
      notificationShown :=
        if captured + 1 > NOTIFICATION_THRESHOLD ∧ s.notificationShown = false then true
        else s.notificationShown }
  else
    { s with isConnected := false }

/-- The `ws.onclose` handler (useWebSocket.js lines 144-197).  `captured` is
the `connectionAttempts` value in the handler's closure and `shouldReconnect`
is `shouldReconnectRef.current`.  Returns the updated state and, when the
handler schedules a reconnect timer (lines 182-190), `some delay`; the
`else if` branch at line 191 sets the terminal "Failed to connect after 10
attempts" error. -/
def onClose (captured : ℕ) (shouldReconnect : Bool) (e : CloseEvent) (s : WSState) :
    WSState × Option ℕ :=
  if shouldReconnect = true ∧ captured < MAX_RECONNECT_ATTEMPTS then
    (onCloseState captured e s, some (getReconnectDelay captured))
  else if captured ≥ MAX_RECONNECT_ATTEMPTS then
    ({ onCloseState captured e s with terminalError := true }, none)
  else
    (onCloseState captured e s, none)

/-- Replay a sequence of close events through the hook as it actually runs: a
mounted hook has `shouldReconnectRef.current = true` and every handler's
closure holds `captured = 0` (see the section comment).  Collects the
scheduled reconnect delays in order. -/
def runCloses (s : WSState) : List CloseEvent → WSState × List (Option ℕ)
  | [] => (s, [])
  | e :: es =>
    let r := onClose 0 true e s
    let rest := runCloses r.1 es
    (rest.1, r.2 :: rest.2)

theorem onCloseState_terminalError (captured : ℕ) (e : CloseEvent) (s : WSState) :
    (onCloseState captured e s).terminalError = s.terminalError := by
  unfold onCloseState
  split_ifs <;> rfl

theorem onClose_captured_zero_delay (e : CloseEvent) (s : WSState) :
    (onClose 0 true e s).2 = some 3000 := by
  have h : true = true ∧ 0 < MAX_RECONNECT_ATTEMPTS := ⟨rfl, by norm_num [MAX_RECONNECT_ATTEMPTS]⟩
  rw [onClose, if_pos h]
  rfl

theorem onClose_captured_zero_terminalError (e : CloseEvent) (s : WSState) :
    (onClose 0 true e s).1.terminalError = s.terminalError := by
  have h : true = true ∧ 0 < MAX_RECONNECT_ATTEMPTS := ⟨rfl, by norm_num [MAX_RECONNECT_ATTEMPTS]⟩
  rw [onClose, if_pos h]
  exact onCloseState_terminalError 0 e s

theorem runCloses_delays (n : ℕ) : ∀ s : WSState,
    (runCloses s (List.replicate n uncleanClose)).2 =
      List.replicate n (some 3000) ∧
    (runCloses s (List.replicate n uncleanClose)).1.terminalError = s.terminalError := by
  induction n with
  | zero => intro s; simp [runCloses]
  | succ n ih =>
    intro s
    rw [List.replicate_succ]
    obtain ⟨h1, h2⟩ := ih (onClose 0 true uncleanClose s).1
    refine ⟨?_, ?_⟩
    · simp only [runCloses, h1, onClose_captured_zero_delay, List.replicate_succ]
    · simp only [runCloses, h2, onClose_captured_zero_terminalError]

/-- C2 (evaluation at the failing input).  In the code as written, every
unclean close schedules a reconnect after `getReconnectDelay 0 = 3000` ms —
the second unclean close already diverges from the claimed `6000` ms — the
state counter sticks at 1, and the terminal-error branch is never reached, for
any number of consecutive unclean closes.  (The intended formula
`getReconnectDelay` does yield 3000, 6000 for attempts 0, 1; the handlers just
never see an attempts value other than 0.) -/
theorem reconnect_backoff_stale_closure :
    (runCloses WSState.init [uncleanClose, uncleanClose]).2 =
      [some 3000, some 3000] ∧
    (runCloses WSState.init [uncleanClose, uncleanClose]).1.connectionAttempts = 1 ∧
    getReconnectDelay 0 = 3000 ∧ getReconnectDelay 1 = 6000 ∧
    (∀ n : ℕ,
      (runCloses WSState.init (List.replicate n uncleanClose)).2 =
        List.replicate n (some 3000) ∧
      (runCloses WSState.init (List.replicate n uncleanClose)).1.terminalError = false) :=
  ⟨by decide, by decide, by decide, by decide, fun n => runCloses_delays n WSState.init⟩

/-- C3 counterexample: while the hook is mounted (`shouldReconnectRef.current
= true`), a clean close — code 1000, `wasClean` — DOES schedule a reconnect
(3000 ms): the reconnect branch at lines 182-190 runs for every close event,
clean or not. -/
theorem cleanClose_schedules_reconnect :
    (onClose 0 true { code := 1000, wasClean := true } WSState.init).2 = some 3000 ∧
    (onClose 0 true { code := 1000, wasClean := true } WSState.init).2 ≠ none := by
  decide

/-- C3 amended: a close event with code 1000 never increments
`connectionAttempts` (in any state, whatever the handler captured); but a
reconnect is only guaranteed not to be scheduled when the caller-initiated
teardown has cleared `shouldReconnectRef` (`shouldReconnect = false`), as the
`useEffect` cleanup does before calling `close(1000)`. -/
theorem cleanClose_no_increment (captured : ℕ) (sr : Bool) (e : CloseEvent)
    (s : WSState) (hcode : e.code = 1000) :
    (onClose captured sr e s).1.connectionAttempts = s.connectionAttempts ∧
    (sr = false → (onClose captured sr e s).2 = none) := by
  have hstate : onCloseState captured e s = { s with isConnected := false } := by
    unfold onCloseState
    rw [if_neg (by simp [hcode])]
  constructor
  · unfold onClose
    split_ifs <;> simp [hstate]
  · intro hsr
    subst hsr
    unfold onClose
    rw [if_neg (by simp)]
    split_ifs <;> rfl

/-- Witness for C3's amended theorem: the unmount path (code 1000, teardown
already done, so `shouldReconnect = false`) neither increments the counter nor
schedules a reconnect. -/
theorem cleanClose_no_increment_witness :
    ({ code := 1000, wasClean := true } : CloseEvent).code = 1000 ∧
    ((onClose 2 false { code := 1000, wasClean := true } WSState.init).1.connectionAttempts
        = WSState.init.connectionAttempts ∧
      (false = false →
        (onClose 2 false { code := 1000, wasClean := true } WSState.init).2 = none)) :=
  ⟨rfl, cleanClose_no_increment 2 false { code := 1000, wasClean := true } WSState.init rfl⟩

/-! ## Subscription registry & message router
(src/frontend/src/context/WebSocketContext.jsx; message shapes and type guards
from src/frontend/src/types/websocket-types.ts)

The processing effect runs once per delivered message with the then-current
`subscribedDevices` and `latestFrames` (each message is handled in its own
render cycle, after the previous message's state updates committed), so it is
modelled as a sequential state transformer. -/

/-- A decoded server JSON message: the fields the provider reads, `none` when
absent.  The `audio` and `metadata` payloads are opaque to the router and
modelled as strings. -/
structure ServerMsg where
  type : Option String := none
  device_id : Option String := none
  deviceId : Option String := none
  message : Option String := none
  image : Option String := none
  audio : Option String := none
  metadata : Option String := none
  status : Option String := none
  alert : Option String := none
  timestamp : Option String := none
  last_seen : Option String := none
  device_name : Option String := none
  deriving DecidableEq

/-- `isFrameMessage`: `message.type === "frame" && typeof message.device_id === "string"`. -/
def isFrameMessage (m : ServerMsg) : Bool :=
  m.type == some "frame" && m.device_id.isSome

/-- `isStatusMessage`: `message.type === "status" && typeof message.device_id === "string"`. -/
def isStatusMessage (m : ServerMsg) : Bool :=
  m.type == some "status" && m.device_id.isSome

/-- `isErrorMessage`: `message.type === "error" && typeof message.message === "string"`. -/
def isErrorMessage (m : ServerMsg) : Bool :=
  m.type == some "error" && m.message.isSome

/-- `isAlertMessage`: `message.type === "alert" && typeof message.device_id === "string"`. -/
def isAlertMessage (m : ServerMsg) : Bool :=
  m.type == some "alert" && m.device_id.isSome

/-- JS truthiness of an optional string (`undefined` and `""` are falsy). -/
def truthy : Option String → Bool
  | some s => !(s == "")
  | none => false

/-- `const deviceId = message.device_id || message.deviceId;` followed by the
`if (!deviceId)` system-message bail-out: `some` of the extracted id when it
is truthy, `none` when the message is treated as a system message. -/
def routedDeviceId (m : ServerMsg) : Option String :=
  let d := if truthy m.device_id then m.device_id else m.deviceId
  if truthy d then d else none

/-- One entry of the `latestFrames` map (`device_id -> {...}`).  Fields absent
from the JS object are `none`; in particular the frame branch's
`message.metadata || {}` is modelled as the message's metadata field. -/
structure DeviceFrame where
  image : Option String := none
  audio : Option String := none
  timestamp : Option String := none
  metadata : Option String := none
  alert : Option String := none
  alertTimestamp : Option String := none
  status : Option String := none
  last_seen : Option String := none
  deriving DecidableEq

/-- JS `Map.get` on an association list with unique keys. -/
def mapGet (k : String) : List (String × DeviceFrame) → Option DeviceFrame
  | [] => none
  | p :: rest => if p.1 = k then some p.2 else mapGet k rest

/-- JS `Map.set`: replace in place, or append when the key is new. -/
def mapSet (k : String) (v : DeviceFrame) :
    List (String × DeviceFrame) → List (String × DeviceFrame)
  | [] => [(k, v)]
  | p :: rest => if p.1 = k then (k, v) :: rest else p :: mapSet k v rest

/-- JS `Map.delete`: Map keys are unique, so removing every pair with key `k`
is the deletion of the (at most one) entry for `k`. -/
def mapDelete (k : String) : List (String × DeviceFrame) → List (String × DeviceFrame)
  | [] => []
  | p :: rest => if p.1 = k then mapDelete k rest else p :: mapDelete k rest

/-- JS `Set.add` (idempotent; inserts at the end when new). -/
def setAdd (x : String) (l : List String) : List String :=
  if x ∈ l then l else l ++ [x]

/-- JS `Set.delete` (Set members are unique; removes every occurrence). -/
def setDelete (x : String) : List String → List String
  | [] => []
  | y :: rest => if y = x then setDelete x rest else y :: setDelete x rest

/-- The provider state the claims are about: the subscription set and the
`latestFrames` device stream store. -/
structure ProviderState where
  subscribedDevices : List String
  latestFrames : List (String × DeviceFrame)
  deriving DecidableEq

/-- `subscribe(deviceId)` (WebSocketContext.jsx lines 45-63): bail out on a
falsy id, then add it to the set.  (When connected it also sends a subscribe
message on the wire; that does not touch this state.) -/
def subscribe (deviceId : String) (s : ProviderState) : ProviderState :=
  if deviceId = "" then s
  else { s with subscribedDevices := setAdd deviceId s.subscribedDevices }

/-- `unsubscribe(deviceId)` (lines 69-94): bail out on a falsy id, remove the
id from the set and delete the device's entry from `latestFrames` in the same
step.  (When connected it also sends an unsubscribe message on the wire.) -/
def unsubscribe (deviceId : String) (s : ProviderState) : ProviderState :=
  if deviceId = "" then s
  else
    { s with
      subscribedDevices := setDelete deviceId s.subscribedDevices
      latestFrames := mapDelete deviceId s.latestFrames }

/-- A call into the notifier collaborator (`useDeviceNotifications`). -/
inductive Notification where
  | deviceConnected (deviceId : String) (deviceName : Option String)
  | deviceDisconnected (deviceId : String) (deviceName : Option String)
  | deviceStatusChange (deviceId : String) (status : Option String)
  deriving DecidableEq

/-- The fresh entry the frame branch stores (WebSocketContext.jsx lines
131-140): a new object built from the message only — the existing entry is
not spread into it. -/
def frameEntry (m : ServerMsg) : DeviceFrame :=
  { image := m.image, audio := m.audio, timestamp := m.timestamp,
    metadata := m.metadata }

/-- The message-processing effect (WebSocketContext.jsx lines 100-198) for one
decoded message: the new `latestFrames` map and the notifier calls made.
`hn` is whether `useDeviceNotifications` returned a notifier.  The guards and
branch order follow the source: error bail-out, missing-id bail-out,
subscription filter, then frame / alert / status / other. -/
def processFrames (hn : Bool) (m : ServerMsg) (s : ProviderState) :
    List (String × DeviceFrame) × List Notification :=
  if isErrorMessage m then (s.latestFrames, [])
  else
    match routedDeviceId m with
    | none => (s.latestFrames, [])
    | some deviceId =>
      if deviceId ∈ s.subscribedDevices then
        if isFrameMessage m then
          (mapSet deviceId (frameEntry m) s.latestFrames, [])
        else if isAlertMessage m then
          (mapSet deviceId
            { (mapGet deviceId s.latestFrames).getD {} with
              alert := m.alert, alertTimestamp := m.timestamp } s.latestFrames, [])
        else if isStatusMessage m then
          let previousStatus := (mapGet deviceId s.latestFrames).bind DeviceFrame.status
          let notifs :=
            if hn = true ∧ truthy previousStatus = true ∧ previousStatus ≠ m.status then
              if m.status = some "online" then
                [Notification.deviceConnected deviceId m.device_name]
              else if m.status = some "offline" then
                [Notification.deviceDisconnected deviceId m.device_name]
              else
                [Notification.deviceStatusChange deviceId m.status]
            else []
          (mapSet deviceId
            { (mapGet deviceId s.latestFrames).getD {} with
              status := m.status,
              last_seen := if truthy m.last_seen then m.last_seen else m.timestamp }
            s.latestFrames, notifs)
        else (s.latestFrames, [])
      else (s.latestFrames, [])

/-- One message through the effect: the subscription set is never written by
message processing, so the new state is the old one with `latestFrames`
replaced. -/
def processMessage (hn : Bool) (m : ServerMsg) (s : ProviderState) :
    ProviderState × List Notification :=
  let r := processFrames hn m s
  ({ s with latestFrames := r.1 }, r.2)

/-- A sequence of delivered messages through the effect, collecting the
notifier calls in order. -/
def runMessages (hn : Bool) (s : ProviderState) :
    List ServerMsg → ProviderState × List Notification
  | [] => (s, [])
  | m :: ms =>
    let r := processMessage hn m s
    let rest := runMessages hn r.1 ms
    (rest.1, r.2 ++ rest.2)

theorem mapGet_mapDelete (k : String) (l : List (String × DeviceFrame)) :
    mapGet k (mapDelete k l) = none := by
  induction l with
  | nil => rfl
  | cons p rest ih =>
    unfold mapDelete
    split_ifs with h
    · exact ih
    · unfold mapGet
      rw [if_neg h]
      exact ih

theorem not_mem_setDelete (x : String) (l : List String) :
    x ∉ setDelete x l := by
  induction l with
  | nil => simp [setDelete]
  | cons y rest ih =>
    unfold setDelete
    split_ifs with h
    · exact ih
    · intro hmem
      rcases List.mem_cons.1 hmem with rfl | hmem
      · exact h rfl
      · exact ih hmem

theorem processMessage_not_subscribed (hn : Bool) (m : ServerMsg)
    (s : ProviderState) (d : String) (hroute : routedDeviceId m = some d)
    (hmem : d ∉ s.subscribedDevices) :
    processMessage hn m s = (s, []) := by
  unfold processMessage processFrames
  by_cases he : isErrorMessage m = true
  · simp [he]
  · simp [he, hroute, hmem]

/-- C4. `unsubscribe(d)` deletes `d`'s `latestFrames` entry in the same step
and removes `d` from the subscription set; while `d` is unsubscribed, any
inbound message routed to `d` leaves the state unchanged and emits nothing;
and message processing never writes the subscription set, so `d` stays
unsubscribed until `subscribe(d)` is called again. -/
theorem unsubscribe_drops_device (d : String) (hd : d ≠ "") (s : ProviderState) :
    mapGet d (unsubscribe d s).latestFrames = none ∧
    d ∉ (unsubscribe d s).subscribedDevices ∧
    (∀ (hn : Bool) (m : ServerMsg) (s' : ProviderState), d ∉ s'.subscribedDevices →
      routedDeviceId m = some d → processMessage hn m s' = (s', [])) ∧
    (∀ (hn : Bool) (m : ServerMsg) (s' : ProviderState),
      (processMessage hn m s').1.subscribedDevices = s'.subscribedDevices) := by
  refine ⟨?_, ?_, ?_, ?_⟩
  · unfold unsubscribe
    rw [if_neg hd]
    exact mapGet_mapDelete d s.latestFrames
  · unfold unsubscribe
    rw [if_neg hd]
    exact not_mem_setDelete d s.subscribedDevices
  · intro hn m s' hmem hroute
    exact processMessage_not_subscribed hn m s' d hroute hmem
  · intro hn m s'
    rfl

/-- Concrete device stream state used to instantiate C4's theorem. -/
def c4State : ProviderState :=
  { subscribedDevices := ["cam1", "cam2"]
    latestFrames := [("cam1", { image := some "img1", status := some "online" }),
                     ("cam2", { image := some "img9" })] }

/-- A frame message for device `cam1`. -/
def c4FrameMsg : ServerMsg :=
  { type := some "frame", device_id := some "cam1", image := some "img2",
    timestamp := some "t2" }

/-- Witness for C4 at device `cam1` of `c4State`. -/
theorem unsubscribe_drops_device_witness :
    ("cam1" : String) ≠ "" ∧
    mapGet "cam1" (unsubscribe "cam1" c4State).latestFrames = none ∧
    "cam1" ∉ (unsubscribe "cam1" c4State).subscribedDevices ∧
    processMessage true c4FrameMsg (unsubscribe "cam1" c4State) =
      (unsubscribe "cam1" c4State, []) ∧
    (processMessage true c4FrameMsg c4State).1.subscribedDevices =
      c4State.subscribedDevices := by
  have h := unsubscribe_drops_device "cam1" (by decide) c4State
  refine ⟨by decide, h.1, h.2.1, ?_, h.2.2.2 true c4FrameMsg c4State⟩
  exact h.2.2.1 true c4FrameMsg (unsubscribe "cam1" c4State) h.2.1 (by decide)

/-! ### C6: effect of a frame message on stored alert/status -/

/-- A stored entry for `cam1` holding an alert and a status. -/
def c6Entry : DeviceFrame :=
  { image := some "img1", timestamp := some "t1", alert := some "intruder",
    alertTimestamp := some "t0", status := some "online", last_seen := some "t0" }

/-- State with `cam1` subscribed and `c6Entry` stored. -/
def c6State : ProviderState :=
  { subscribedDevices := ["cam1"], latestFrames := [("cam1", c6Entry)] }

/-- A frame message for `cam1`. -/
def c6FrameMsg : ServerMsg :=
  { type := some "frame", device_id := some "cam1", image := some "img2",
    timestamp := some "t2" }

/-- C6 counterexample: dispatching a frame message for subscribed `cam1` does
NOT leave the stored `alert` and `status` unchanged — the frame branch builds
a fresh `{image, audio, timestamp, metadata}` object without spreading the
existing entry, so both are cleared. -/
theorem frame_clobbers_alert_status :
    ¬ ((mapGet "cam1" (processMessage true c6FrameMsg c6State).1.latestFrames).bind
          DeviceFrame.alert =
        (mapGet "cam1" c6State.latestFrames).bind DeviceFrame.alert ∧
       (mapGet "cam1" (processMessage true c6FrameMsg c6State).1.latestFrames).bind
          DeviceFrame.status =
        (mapGet "cam1" c6State.latestFrames).bind DeviceFrame.status) := by
  decide

theorem frame_not_error (m : ServerMsg) (h : isFrameMessage m = true) :
    isErrorMessage m = false := by
  unfold isFrameMessage at h
  rw [Bool.and_eq_true, beq_iff_eq] at h
  unfold isErrorMessage
  rw [h.1]
  have hne : (some "frame" == some "error") = false := by decide
  rw [hne, Bool.false_and]

/-- C6 amended: dispatching a frame message for a subscribed device replaces
the device's ENTIRE `latestFrames` entry with the fresh
`{image, audio, timestamp, metadata}` object built from the message:
`latestImage` and `latestAudio` are replaced, and the entry's alert and
status fields end up cleared (`none`) whatever was stored, not preserved.
No notification is emitted. -/
theorem frame_replaces_entire_entry (hn : Bool) (m : ServerMsg)
    (s : ProviderState) (d : String) (hroute : routedDeviceId m = some d)
    (hsub : d ∈ s.subscribedDevices) (hframe : isFrameMessage m = true) :
    processMessage hn m s =
      ({ s with latestFrames := mapSet d (frameEntry m) s.latestFrames }, []) ∧
    (frameEntry m).alert = none ∧ (frameEntry m).status = none := by
  refine ⟨?_, rfl, rfl⟩
  unfold processMessage processFrames
  simp [frame_not_error m hframe, hroute, hsub, hframe]

/-- Witness for C6's amended theorem at `c6State` / `c6FrameMsg`. -/
theorem frame_replaces_entire_entry_witness :
    routedDeviceId c6FrameMsg = some "cam1" ∧
    "cam1" ∈ c6State.subscribedDevices ∧
    isFrameMessage c6FrameMsg = true ∧
    (processMessage true c6FrameMsg c6State =
      ({ c6State with
          latestFrames := mapSet "cam1" (frameEntry c6FrameMsg)
            c6State.latestFrames }, []) ∧
      (frameEntry c6FrameMsg).alert = none ∧
      (frameEntry c6FrameMsg).status = none) :=
  ⟨by decide, by decide, by decide,
    frame_replaces_entire_entry true c6FrameMsg c6State "cam1"
      (by decide) (by decide) (by decide)⟩

/-! ### C9/C10: status-change notifications -/

/-- Master description of the notifier calls of one processed message: either
none are made, or the message passed the subscription filter and reached the
status branch with a stored, truthy previous status differing from the new
one. -/
theorem processMessage_notifications (hn : Bool) (m : ServerMsg)
    (s : ProviderState) :
    (processMessage hn m s).2 = [] ∨
    (∃ d, routedDeviceId m = some d ∧ d ∈ s.subscribedDevices ∧
      isStatusMessage m = true ∧
      ∃ p, (mapGet d s.latestFrames).bind DeviceFrame.status = some p ∧
        p ≠ "" ∧ m.status ≠ some p) := by
  unfold processMessage processFrames
  by_cases he : isErrorMessage m = true
  · left; simp [he]
  · rcases hr : routedDeviceId m with _ | d
    · left; simp [he, hr]
    · by_cases hm : d ∈ s.subscribedDevices
      · by_cases hf : isFrameMessage m = true
        · left; simp [he, hr, hm, hf]
        · by_cases ha : isAlertMessage m = true
          · left; simp [he, hr, hm, hf, ha]
          · by_cases hs : isStatusMessage m = true
            · by_cases hg : hn = true ∧
                  truthy ((mapGet d s.latestFrames).bind DeviceFrame.status) = true ∧
                  (mapGet d s.latestFrames).bind DeviceFrame.status ≠ m.status
              · right
                obtain ⟨hn', ht, hne⟩ := hg
                refine ⟨d, rfl, hm, hs, ?_⟩
                rcases hp : (mapGet d s.latestFrames).bind DeviceFrame.status
                  with _ | p
                · rw [hp] at ht
                  exact absurd ht (by decide)
                · rw [hp] at ht hne
                  refine ⟨p, rfl, ?_, ?_⟩
                  · intro hempty
                    rw [hempty] at ht
                    exact absurd ht (by decide)
                  · intro hcontra
                    exact hne hcontra.symm
              · left; simp [he, hr, hm, hf, ha, hs, hg]
            · left; simp [he, hr, hm, hf, ha, hs]
      · left; simp [he, hr, hm]

/-- C10. The first status message accepted for a device (no status stored for
it yet) emits no notification; and any emitted notification requires a stored,
truthy previous status that differs from the message's status value. -/
theorem first_status_no_notification :
    (∀ (hn : Bool) (m : ServerMsg) (s : ProviderState) (d : String),
      routedDeviceId m = some d →
      (mapGet d s.latestFrames).bind DeviceFrame.status = none →
      (processMessage hn m s).2 = []) ∧
    (∀ (hn : Bool) (m : ServerMsg) (s : ProviderState),
      (processMessage hn m s).2 ≠ [] →
      ∃ d p, routedDeviceId m = some d ∧
        (mapGet d s.latestFrames).bind DeviceFrame.status = some p ∧
        p ≠ "" ∧ m.status ≠ some p) := by
  constructor
  · intro hn m s d hroute hnone
    rcases processMessage_notifications hn m s with h | ⟨d', hd', _, _, p, hp, _, _⟩
    · exact h
    · rw [hroute] at hd'
      injection hd' with hdd
      rw [← hdd, hnone] at hp
      exact Option.noConfusion hp
  · intro hn m s hne
    rcases processMessage_notifications hn m s with h | ⟨d, hd, _, _, p, hp, hpe, hps⟩
    · exact absurd h hne
    · exact ⟨d, p, hd, hp, hpe, hps⟩

/-- State with `cam1` subscribed and nothing stored for it. -/
def c10State : ProviderState :=
  { subscribedDevices := ["cam1"], latestFrames := [] }

/-- A first status message for `cam1`. -/
def c10Msg : ServerMsg :=
  { type := some "status", device_id := some "cam1", status := some "online",
    timestamp := some "t1" }

/-- Witness for C10: the first status message for `cam1` emits nothing. -/
theorem first_status_no_notification_witness :
    routedDeviceId c10Msg = some "cam1" ∧
    (mapGet "cam1" c10State.latestFrames).bind DeviceFrame.status = none ∧
    (processMessage true c10Msg c10State).2 = [] :=
  ⟨by decide, rfl,
    first_status_no_notification.1 true c10Msg c10State "cam1" (by decide) rfl⟩

/-- A status message for device `d` with value `v` (online/offline/...). -/
def statusMsg (d v : String) : ServerMsg :=
  { type := some "status", device_id := some d, status := some v,
    timestamp := some "ts" }

/-- State with `cam1` subscribed, before any message. -/
def c9State : ProviderState :=
  { subscribedDevices := ["cam1"], latestFrames := [] }

theorem routedDeviceId_statusMsg (d v : String) (hd : d ≠ "") :
    routedDeviceId (statusMsg d v) = some d := by
  unfold routedDeviceId statusMsg
  simp [truthy, hd]

/-- C9. Status messages driving the stored status through
`online → offline → online` (with repeats) emit exactly two notifications, one
per transition: a disconnect and a connect; and in general a status message
whose value equals the stored one emits no notification. -/
theorem status_transition_notifications :
    (runMessages true c9State
        [statusMsg "cam1" "online", statusMsg "cam1" "online",
         statusMsg "cam1" "offline", statusMsg "cam1" "offline",
         statusMsg "cam1" "online"]).2 =
      [Notification.deviceDisconnected "cam1" none,
       Notification.deviceConnected "cam1" none] ∧
    (∀ (hn : Bool) (s : ProviderState) (d v : String),
      (mapGet d s.latestFrames).bind DeviceFrame.status = some v →
      (processMessage hn (statusMsg d v) s).2 = []) := by
  constructor
  · decide
  · intro hn s d v hprev
    rcases processMessage_notifications hn (statusMsg d v) s with
      h | ⟨d', hd', _, _, p, hp, _, hps⟩
    · exact h
    · exfalso
      by_cases hdeq : d = ""
      · rw [hdeq] at hd'
        have hnone : routedDeviceId (statusMsg "" v) = none := rfl
        rw [hnone] at hd'
        exact Option.noConfusion hd'
      · rw [routedDeviceId_statusMsg d v hdeq] at hd'
        injection hd' with hdd
        rw [← hdd, hprev] at hp
        injection hp with hpv
        rw [← hpv] at hps
        exact hps rfl

/-- State with `cam1` subscribed and status `online` stored, to instantiate
the unchanged-status conjunct of C9's theorem. -/
def c9WitState : ProviderState :=
  { subscribedDevices := ["cam1"]
    latestFrames := [("cam1", { status := some "online" })] }

/-- Witness for C9: a repeated `online` status message emits nothing. -/
theorem status_transition_notifications_witness :
    (mapGet "cam1" c9WitState.latestFrames).bind DeviceFrame.status =
      some "online" ∧
    (processMessage true (statusMsg "cam1" "online") c9WitState).2 = [] :=
  ⟨rfl, status_transition_notifications.2 true c9WitState "cam1" "online" rfl⟩

/-! ## Audio playback queue (src/frontend/src/components/Video/LiveFeed.jsx,
`playAudio` lines 110-163 and `playNextAudioBuffer` lines 168-198)

Decoded buffers are identified by abstract ids (naturals).  `queue` is
`audioQueueRef.current`, `isPlaying` is `isPlayingAudioRef.current`;
`current` models the in-flight `AudioBufferSourceNode` (whose `onended`
callback invokes `playNextAudioBuffer`), and `playLog` records the buffers
handed to `source.start`, in order. -/

structure AudioState where
  queue : List ℕ
  isPlaying : Bool
  playing : List ℕ
  playLog : List ℕ
  deriving DecidableEq

def AudioState.start : AudioState :=
  { queue := [], isPlaying := false, playing := [], playLog := [] }

/-- `playNextAudioBuffer()`: on an empty queue clear the playing flag and
return; otherwise set the flag, `shift()` the head buffer, connect and start
a source for it (one more in-flight source, one more log entry). -/
def playNext (s : AudioState) : AudioState :=
  match s.queue with
  | [] => { s with isPlaying := false }
  | b :: rest =>
    { s with isPlaying := true, queue := rest, playing := s.playing ++ [b],
             playLog := s.playLog ++ [b] }

/-- The tail of `playAudio(audioData)` after a successful decode: `push` the
decoded buffer onto the queue, then start playback when nothing is playing. -/
def enqueue (b : ℕ) (s : AudioState) : AudioState :=
  let pushed : AudioState := { s with queue := s.queue ++ [b] }
  if pushed.isPlaying then pushed else playNext pushed

/-- An event-loop event touching the queue: a decoded chunk arrives, or an
in-flight source fires `onended` (retiring that source and invoking
`playNextAudioBuffer`).  With no source in flight the `ended` event cannot
occur, so it is a no-op there. -/
inductive AudioEvent where
  | enq (b : ℕ)
  | ended
  deriving DecidableEq

def stepAudio (s : AudioState) : AudioEvent → AudioState
  | .enq b => enqueue b s
  | .ended =>
    match s.playing with
    | c :: rest => playNext { s with playing := rest }
    | [] => s

/-- Run a trace of events from the empty, idle state. -/
def runAudio (evs : List AudioEvent) : AudioState :=
  evs.foldl stepAudio AudioState.start

/-- The buffers enqueued by a trace, in arrival order. -/
def enqueuedOf (evs : List AudioEvent) : List ℕ :=
  evs.filterMap (fun e => match e with | .enq b => some b | .ended => none)

/-- States reachable by the queue: the playing flag means some source is in
flight, never more than one source is in flight at a time, and the machine
only idles on an empty queue. -/
def AudioInv (s : AudioState) : Prop :=
  (s.isPlaying = true ↔ s.playing ≠ []) ∧ s.playing.length ≤ 1 ∧
    (s.isPlaying = false → s.queue = [])

theorem stepAudio_inv (s : AudioState) (e : AudioEvent) (h : AudioInv s) :
    AudioInv (stepAudio s e) ∧
    (stepAudio s e).playLog ++ (stepAudio s e).queue =
      s.playLog ++ s.queue ++ enqueuedOf [e] := by
  obtain ⟨q, ip, pl, log⟩ := s
  obtain ⟨h1, h2, h3⟩ := h
  simp only at h1 h2 h3
  cases e with
  | enq b =>
    cases ip with
    | false =>
      have hq : q = [] := h3 rfl
      have hpl : pl = [] := by
        by_contra hne
        exact absurd (h1.2 hne) (by simp)
      subst hq; subst hpl
      simp [stepAudio, enqueue, playNext, AudioInv, enqueuedOf]
    | true =>
      refine ⟨⟨?_, h2, ?_⟩, ?_⟩ <;>
        simp [stepAudio, enqueue, AudioInv, enqueuedOf, h1.1 rfl]
  | ended =>
    cases pl with
    | nil =>
      exact ⟨⟨h1, h2, h3⟩, by simp [stepAudio, enqueuedOf]⟩
    | cons c rest =>
      have hrest : rest = [] := by
        have := h2
        simp at this
        exact this
      subst hrest
      cases q with
      | nil => simp [stepAudio, playNext, AudioInv, enqueuedOf]
      | cons b rest2 => simp [stepAudio, playNext, AudioInv, enqueuedOf]

theorem runAudio_aux (evs : List AudioEvent) : ∀ s : AudioState, AudioInv s →
    AudioInv (evs.foldl stepAudio s) ∧
    (evs.foldl stepAudio s).playLog ++ (evs.foldl stepAudio s).queue =
      s.playLog ++ s.queue ++ enqueuedOf evs := by
  induction evs with
  | nil => intro s h; simpa [enqueuedOf] using h
  | cons e evs ih =>
    intro s h
    obtain ⟨h1, h2⟩ := stepAudio_inv s e h
    obtain ⟨h3, h4⟩ := ih (stepAudio s e) h1
    refine ⟨h3, ?_⟩
    rw [List.foldl_cons, h4, h2]
    cases e <;> simp [enqueuedOf, List.filterMap_cons, List.append_assoc]

/-- C5. FIFO, non-overlapping audio playback: across any event trace, the
buffers started so far followed by the still-queued ones are exactly the
enqueued buffers in arrival order (so playback order is the enqueue order,
nothing skipped or reordered); never more than one source is in flight at a
time (no overlap) and the playing flag tracks that; the machine only idles
with an empty queue; when a source finishes with a non-empty queue the head
buffer starts immediately; and when one finishes with an empty queue playback
stops. -/
theorem audio_queue_fifo (evs : List AudioEvent) :
    ((runAudio evs).playLog ++ (runAudio evs).queue = enqueuedOf evs) ∧
    ((runAudio evs).playing.length ≤ 1) ∧
    ((runAudio evs).isPlaying = true ↔ (runAudio evs).playing ≠ []) ∧
    ((runAudio evs).isPlaying = false → (runAudio evs).queue = []) ∧
    (∀ (t : AudioState) (c b : ℕ) (rest : List ℕ), t.playing = [c] →
      t.queue = b :: rest →
      (stepAudio t AudioEvent.ended).playing = [b] ∧
      (stepAudio t AudioEvent.ended).playLog = t.playLog ++ [b]) ∧
    (∀ (t : AudioState) (c : ℕ), t.playing = [c] → t.queue = [] →
      (stepAudio t AudioEvent.ended).isPlaying = false ∧
      (stepAudio t AudioEvent.ended).playing = []) := by
  have hstart : AudioInv AudioState.start := by
    refine ⟨?_, ?_, ?_⟩ <;> simp [AudioState.start]
  obtain ⟨hinv, hlog⟩ := runAudio_aux evs AudioState.start hstart
  refine ⟨?_, hinv.2.1, hinv.1, hinv.2.2, ?_, ?_⟩
  · simpa [AudioState.start] using hlog
  · intro t c b rest hc hq
    obtain ⟨q, ip, pl, log⟩ := t
    simp only at hc hq
    subst hc; subst hq
    simp [stepAudio, playNext]
  · intro t c hc hq
    obtain ⟨q, ip, pl, log⟩ := t
    simp only at hc hq
    subst hc; subst hq
    simp [stepAudio, playNext]

/-- Witness for C5: the trace enqueue 1, enqueue 2, ended; and concrete
one-source-in-flight states for the ended-event conjuncts. -/
theorem audio_queue_fifo_witness :
    ((runAudio [AudioEvent.enq 1, AudioEvent.enq 2, AudioEvent.ended]).playLog ++
        (runAudio [AudioEvent.enq 1, AudioEvent.enq 2, AudioEvent.ended]).queue =
      enqueuedOf [AudioEvent.enq 1, AudioEvent.enq 2, AudioEvent.ended]) ∧
    (runAudio [AudioEvent.enq 1, AudioEvent.enq 2, AudioEvent.ended]).playing.length ≤ 1 ∧
    (stepAudio ⟨[2], true, [1], [1]⟩ AudioEvent.ended).playing = [2] ∧
    (stepAudio ⟨[2], true, [1], [1]⟩ AudioEvent.ended).playLog = [1] ++ [2] ∧
    (stepAudio ⟨[], true, [2], [1, 2]⟩ AudioEvent.ended).isPlaying = false := by
  have h := audio_queue_fifo [AudioEvent.enq 1, AudioEvent.enq 2, AudioEvent.ended]
  have h4 := h.2.2.2.2.1 ⟨[2], true, [1], [1]⟩ 1 2 [] rfl rfl
  have h5 := h.2.2.2.2.2 ⟨[], true, [2], [1, 2]⟩ 2 rfl rfl
  exact ⟨h.1, h.2.1, h4.1, h4.2, h5.1⟩

/-! ## PCM16 / base64 decode (LiveFeed.jsx `playAudio` lines 126-144)

`atob` turns the base64 payload into a byte string; the bytes are
reinterpreted as 16-bit signed little-endian samples
(`new Int16Array(bytes.buffer)`) and each sample is normalised by dividing by
32768.  `atob`/`btoa` implement RFC 4648 base64 over the standard
alphabet. -/

def b64Alphabet : List Char :=
  "ABCDEFGHIJKLMNOPQRSTUVWXYZabcdefghijklmnopqrstuvwxyz0123456789+/".toList

/-- 6-bit value of a base64 character; `none` outside the alphabet. -/
def b64Val (c : Char) : Option ℕ :=
  if b64Alphabet.indexOf c < 64 then some (b64Alphabet.indexOf c) else none

/-- Regroup 6-bit values into 8-bit bytes (4 values to 3 bytes; a final
group of 3 or 2 values — one or two `=` pads — yields 2 or 1 bytes). -/
def b64DecodeVals : List ℕ → List ℕ
  | v1 :: v2 :: v3 :: v4 :: rest =>
    (v1 * 4 + v2 / 16) :: ((v2 % 16) * 16 + v3 / 4) :: ((v3 % 4) * 64 + v4) ::
      b64DecodeVals rest
  | [v1, v2, v3] => [v1 * 4 + v2 / 16, (v2 % 16) * 16 + v3 / 4]
  | [v1, v2] => [v1 * 4 + v2 / 16]
  | _ => []

/-- The browser's `atob`: drop the trailing `=` padding, map every character
to its 6-bit value and regroup into bytes; `none` when a character falls
outside the alphabet (there `atob` throws, and `playAudio`'s try/catch skips
the chunk). -/
def atob (s : String) : Option (List ℕ) :=
  ((s.toList.takeWhile (fun c => c != '=')).mapM b64Val).map b64DecodeVals

/-- `new Int16Array(bytes.buffer)`: consecutive byte pairs, little-endian,
two's complement.  (PCM16 payloads have even length.) -/
def bytesToInt16LE : List ℕ → List ℤ
  | lo :: hi :: rest =>
    (if lo + 256 * hi < 32768 then (lo + 256 * hi : ℤ)
     else (lo + 256 * hi : ℤ) - 65536) :: bytesToInt16LE rest
  | _ => []

/-- `float32Array[i] = int16Array[i] / 32768.0`.  PCM16 magnitudes divided by
the power of two 32768 are exactly representable, so the source's float
arithmetic is exact here and the rational model loses nothing. -/
def pcm16ToFloats (xs : List ℤ) : List ℚ :=
  xs.map (fun x => (x : ℚ) / 32768)

/-- The decode pipeline of `playAudio`: base64 text, to bytes, to signed
little-endian 16-bit samples, to normalised floats. -/
def decodePcm16Base64 (s : String) : Option (List ℚ) :=
  (atob s).map (fun bytes => pcm16ToFloats (bytesToInt16LE bytes))

/-- Base64 character for a 6-bit value. -/
def b64Char (v : ℕ) : Char := b64Alphabet.getD v 'A'

/-- RFC 4648 base64 of a byte list (3 bytes to 4 characters, `=`-padded
tail). -/
def b64EncodeBytes : List ℕ → List Char
  | b1 :: b2 :: b3 :: rest =>
    b64Char (b1 / 4) :: b64Char ((b1 % 4) * 16 + b2 / 16) ::
      b64Char ((b2 % 16) * 4 + b3 / 64) :: b64Char (b3 % 64) ::
        b64EncodeBytes rest
  | [b1, b2] =>
    [b64Char (b1 / 4), b64Char ((b1 % 4) * 16 + b2 / 16),
     b64Char ((b2 % 16) * 4), '=']
  | [b1] => [b64Char (b1 / 4), b64Char ((b1 % 4) * 16), '=', '=']
  | [] => []

/-- Modelled from the spec: the device-side capture script is not under src/
(only its README is); spec section 6 gives the frame's `audio.data` as base64
encoded PCM16, i.e. each 16-bit sample stored little-endian (two's
complement) and the byte stream base64 encoded. -/
def encodePcm16Base64 (samples : List ℤ) : String :=
  String.mk (b64EncodeBytes (samples.flatMap (fun v =>
    [(v % 65536).toNat % 256, (v % 65536).toNat / 256])))

/-- C7. Encoding the PCM16 sample 16384 to base64 yields `"AEA="`, and
decoding it back through `playAudio`'s pipeline yields exactly the float
sample 1/2 (16384 / 32768 is computed exactly by the source's float
arithmetic, so "within ±1 ULP" holds with equality). -/
theorem pcm16_roundtrip_half :
    encodePcm16Base64 [16384] = "AEA=" ∧
    decodePcm16Base64 (encodePcm16Base64 [16384]) = some [(1 : ℚ) / 2] := by
  have henc : encodePcm16Base64 [16384] = "AEA=" := by decide
  refine ⟨henc, ?_⟩
  rw [henc]
  have hatob : atob "AEA=" = some [0, 64] := by decide
  rw [decodePcm16Base64, hatob]
  norm_num [Option.map, pcm16ToFloats, bytesToInt16LE]

end SmartHome
